import Mathlib

/-!
Shallow embedding of the Wobble test framework (CrackingShells/Wobble),
covering the discovery/categorization engine (`src/wobble/discovery.py`),
the reporting facade (`src/wobble/enhanced_output.py`) and the test runner
(`src/wobble/runner.py`), together with theorems settling the claims about
the natural-language specification.

Modelling conventions:
* Python dictionaries with a fixed key set become Lean structures; a lookup
  with a possibly-missing key becomes an `Option` field.
* Python exceptions become `Except PyErr`; a `try/except` around a block
  becomes a `match` on the block's `Except` value.  In-place mutation of
  `self.discovered_tests` is explicit state passing: every mutation made
  before an exception is raised persists, exactly as in Python.
* The external test-execution collaborator (`unittest`) is abstracted: the
  nested suite returned by `loader.discover` for one directory is given,
  already flattened, as a list of entities, each either a runnable test
  case (with the attributes `_process_test` reads off it) or an
  `_ErrorHolder` placeholder (distinguished in the source by its class
  name).  A directory whose discovery primitive itself raises is an
  `Except.error` suite.
* `datetime.now()` / `time.time()` values are passed in as explicit
  rational timestamps.
-/

namespace Wobble

/-- Python exceptions relevant to the embedded code paths. -/
inductive PyErr where
  | typeError (msg : String)
  | keyError (key : String)
  | other (msg : String)
deriving DecidableEq, Repr

/-- Metadata bag attached to a test by the decorator collaborator
(`get_test_metadata`, spec section 6): optional keys `category`, `slow`,
`skip_ci`; an absent key reads as Python-falsy. -/
structure Metadata where
  category : Option String := none
  slow : Option Bool := none
  skip_ci : Option Bool := none
deriving DecidableEq, Repr

/-- Python truthiness of `metadata.get('slow')` / `metadata.get('skip_ci')`:
a missing key is `None` (falsy). -/
def truthyOpt : Option Bool → Bool
  | some b => b
  | none => false

/-- Python truthiness of `metadata.get('category')`: missing key or empty
string is falsy, any other string is truthy. -/
def truthyCategory (m : Metadata) : Option String :=
  match m.category with
  | some c => if c = "" then none else some c
  | none => none

/-- Python's `sub in s` substring containment on strings: `sub` occurs
contiguously in `s` (the empty string occurs in every string). -/
def strContainsAux (sub : List Char) : List Char → Bool
  | [] => sub.isEmpty
  | c :: cs => sub.isPrefixOf (c :: cs) || strContainsAux sub cs

/-- Python's `sub in s` on strings. -/
def strContains (s sub : String) : Bool :=
  strContainsAux sub.toList s.toList

/-- Python's `s.lower()`, character-wise (the embedded directory names are
ASCII, where `Char.toLower` agrees with Python's lowercasing). -/
def strLower (s : String) : String :=
  String.mk (s.toList.map Char.toLower)

/-- A directory, reduced to the one attribute the engine reads from a
`pathlib.Path` when categorizing: its base name (`directory.name`). -/
structure Dir where
  name : String
deriving DecidableEq, Repr

/-- The test-info record built by `_process_test` (a Python dict with a
fixed key set).  The live `test_case` object itself is not carried: no
embedded code path reads anything off it after the record is built. -/
structure TestInfo where
  test_method : String
  test_class : String
  test_module : String
  directory : Option Dir
  file_path : Option String := none
  metadata : Metadata := {}
deriving DecidableEq, Repr

/-- Embedding of `_determine_category` (discovery.py lines 315-342): decorator metadata
first, then substring inference on the lowercased immediate directory
name, defaulting to `'uncategorized'`. -/
def _determine_category (t : TestInfo) : String :=
  match truthyCategory t.metadata with
  | some c => c
  | none =>
    match t.directory with
    | some d =>
      if strContains (strLower d.name) "regression" then "regression"
      else if strContains (strLower d.name) "integration" then "integration"
      else if strContains (strLower d.name) "development"
          || strContains (strLower d.name) "dev" then "development"
      else "uncategorized"
    | none => "uncategorized"

/-- The directory-inference rule as the spec words it (section 4.1 /
section 8): a pure function of the lowercased immediate directory name,
tried in the order regression, integration, development/dev, else
uncategorized.  Stated separately so the source function can be proved to
refine it. -/
def spec_dir_category (dirName : String) : String :=
  if strContains (strLower dirName) "regression" then "regression"
  else if strContains (strLower dirName) "integration" then "integration"
  else if strContains (strLower dirName) "development"
      || strContains (strLower dirName) "dev" then "development"
  else "uncategorized"

/-- The fixed four-key dictionary built at the top of `_categorize_tests`. -/
structure Categories where
  regression : List TestInfo := []
  integration : List TestInfo := []
  development : List TestInfo := []
  uncategorized : List TestInfo := []
deriving DecidableEq, Repr

/-- Embedding of `categories[category].append(test_info)` inside `_categorize_tests`:
indexing the four-key dict with any other key raises `KeyError`. -/
def categories_append (cs : Categories) (category : String) (t : TestInfo) :
    Except PyErr Categories :=
  if category = "regression" then .ok { cs with regression := cs.regression ++ [t] }
  else if category = "integration" then .ok { cs with integration := cs.integration ++ [t] }
  else if category = "development" then .ok { cs with development := cs.development ++ [t] }
  else if category = "uncategorized" then .ok { cs with uncategorized := cs.uncategorized ++ [t] }
  else .error (.keyError category)

/-- Embedding of `_categorize_tests` (discovery.py lines 296-313): group the discovered
tests under the four fixed keys; the first unknown category key raises. -/
def _categorize_tests (discovered : List TestInfo) : Except PyErr Categories :=
  discovered.foldlM (fun cs t => categories_append cs (_determine_category t) t) {}

/-- The attributes `unittest.suite._ErrorHolder` exposes and
`_process_error_holder` reads: the free-text `description` and the id
string returned by `id()`. -/
structure ErrorHolder where
  description : String
  idStr : String
deriving DecidableEq, Repr

/-- The dictionary `_parse_error_holder_description` returns. -/
structure ParsedInfo where
  original_description : String
  error_type : String := "import_error"
  test_class : Option String := none
  test_module : Option String := none
  file_path : Option String := none
  method_name : Option String := none
  enhanced_message : String
deriving DecidableEq, Repr

/-- The `error_info` dictionary built inside `_process_error_holder`
(discovery.py lines 167-180); the live `error_holder` reference is carried
as the holder's attributes. -/
structure ImportErrorRecord where
  error_holder : ErrorHolder
  error_type : String
  error_description : String
  error_id : String
  test_class : String
  test_module : String
  directory : Dir
  file_path : Option String
  is_error_holder : Bool
  enhanced_info : ParsedInfo
deriving DecidableEq, Repr

/-- Python's `key in xs` when `xs` is a list of test-info dicts: membership
compares the string against each element with `==`; a string never equals
a dict, so the test is always false. -/
def pyStrInList (_key : String) (_xs : List TestInfo) : Bool :=
  false

/-- Python's `xs[key] = v` when `xs` is a list and `key` a string:
always raises `TypeError` (list indices must be integers). -/
def pyListSetStrItem {α : Type} (_xs : List TestInfo) (_key : String) (_v : α) :
    Except PyErr Unit :=
  .error (.typeError "list indices must be integers or slices, not str")

/-- Python's `xs[key]` when `xs` is a list and `key` a string: always
raises `TypeError` (list indices must be integers). -/
def pyListGetStrItem (_xs : List TestInfo) (_key : String) :
    Except PyErr (List ImportErrorRecord) :=
  .error (.typeError "list indices must be integers or slices, not str")

/-- Embedding of `_process_error_holder` (discovery.py lines 152-189).  The regex
parsing of the description (`_parse_error_holder_description`, lines
191-240) is total in Python and its result is only stored, so it is kept
abstract as the `parse` argument.  The function builds the `error_info`
record and then executes `if 'import_errors' not in self.discovered_tests:
self.discovered_tests['import_errors'] = []` followed by
`self.discovered_tests['import_errors'].append(error_info)` -- string
indexing on the `discovered_tests` *list*. -/
def _process_error_holder (parse : String → ParsedInfo)
    (discovered : List TestInfo) (h : ErrorHolder) (directory : Dir) :
    Except PyErr (List TestInfo) := do
  let error_description := h.description
  let error_id := h.idStr
  let enhanced_info := parse error_description
  let error_info : ImportErrorRecord :=
    { error_holder := h
      error_type := "import_failure"
      error_description := error_description
      error_id := error_id
      test_class := "_ErrorHolder"
      test_module := "unittest.suite"
      directory := directory
      file_path := enhanced_info.file_path
      is_error_holder := true
      enhanced_info := enhanced_info }
  if pyStrInList "import_errors" discovered = false then
    pyListSetStrItem discovered "import_errors" ([] : List ImportErrorRecord)
  let bucket ← pyListGetStrItem discovered "import_errors"
  let _ := bucket ++ [error_info]
  return discovered

/-- One entity of the flattened suite handed back by the execution
collaborator for a directory: either a runnable test case (carrying the
attributes `_process_test` reads: `_testMethodName`, class name, module
name, the metadata collaborator's answer, and the class `__file__` when
present) or an `_ErrorHolder` placeholder (distinguished in the source by
class name via `_is_error_holder`). -/
inductive Entity where
  | runnable (testMethodName className moduleName : String)
      (metadata : Metadata) (filePath : Option String)
  | errorHolder (h : ErrorHolder)
deriving DecidableEq, Repr

/-- Embedding of `_process_test` (discovery.py lines 260-294): dispatch `_ErrorHolder`s
to `_process_error_holder`, otherwise append the test-info record to
`discovered_tests`.  (The `try/except AttributeError: pass` around the
metadata lookup never escapes, so the runnable branch cannot raise.) -/
def _process_test (parse : String → ParsedInfo) (discovered : List TestInfo)
    (e : Entity) (directory : Dir) : Except PyErr (List TestInfo) :=
  match e with
  | .errorHolder h => _process_error_holder parse discovered h directory
  | .runnable m c md meta fp =>
      .ok (discovered ++
        [{ test_method := m, test_class := c, test_module := md,
           directory := some directory, file_path := fp, metadata := meta }])

/-- The flattening loop inside the `try` block of `_discover_in_directory`:
process entities in order; an exception from `_process_test` propagates to
the `except` clause, keeping every mutation already made and dropping the
remaining entities of this directory. -/
def processEntities (parse : String → ParsedInfo) (discovered : List TestInfo)
    (directory : Dir) : List Entity → List TestInfo
  | [] => discovered
  | e :: rest =>
    match _process_test parse discovered e directory with
    | .ok discovered' => processEntities parse discovered' directory rest
    | .error _ => discovered

/-- One directory as the collaborator serves it: the directory plus the
flattened result of `loader.discover` on it (`Except.error` when the
discovery primitive itself raises). -/
structure DirOutcome where
  dir : Dir
  suite : Except PyErr (List Entity)
deriving Repr

/-- Embedding of `_discover_in_directory` (discovery.py lines 115-139): the whole body
sits in a `try` whose `except Exception` prints a warning and returns, so
the function never raises and keeps all mutations made before a raise. -/
def _discover_in_directory (parse : String → ParsedInfo)
    (discovered : List TestInfo) (o : DirOutcome) : List TestInfo :=
  match o.suite with
  | .error _ => discovered
  | .ok entities => processEntities parse discovered o.dir entities

/-- The per-directory loop of `discover_tests` (discovery.py lines 51-52),
starting from a given `discovered_tests` state. -/
def discoverAll (parse : String → ParsedInfo) (discovered : List TestInfo)
    (tree : List DirOutcome) : List TestInfo :=
  tree.foldl (_discover_in_directory parse) discovered

/-- The engine's mutable state: `self.discovered_tests`. -/
structure Engine where
  discovered_tests : List TestInfo := []
deriving DecidableEq, Repr

/-- Embedding of `discover_tests` (discovery.py lines 31-57): reset `discovered_tests`
to empty, process every directory `_find_test_directories` reports (the
filesystem probing itself is abstracted: `tree` is the per-directory
collaborator outcome list for the current directory tree, the same list on
an unchanged tree), then categorize.  A `KeyError` from
`_categorize_tests` is not caught here. -/
def discover_tests (parse : String → ParsedInfo) (_eng : Engine)
    (tree : List DirOutcome) : Engine × Except PyErr Categories :=
  let st := discoverAll parse [] tree
  (⟨st⟩, _categorize_tests st)

/-- The per-test keep-condition of the loop in `filter_tests` (discovery.py
lines 375-391): a test survives the `continue`s iff the category check,
the slow check and the CI check all pass.  `if categories:` is Python
truthiness: `None` and the empty list both skip the category check. -/
def keep_test (categories : Option (List String)) (exclude_slow exclude_ci : Bool)
    (t : TestInfo) : Bool :=
  (match categories with
   | none => true
   | some cs => if cs = [] then true else cs.contains (_determine_category t))
  && !(exclude_slow && truthyOpt t.metadata.slow)
  && !(exclude_ci && truthyOpt t.metadata.skip_ci)

/-- Embedding of `filter_tests` (discovery.py lines 356-393): when `discovered_tests` is
empty (Python-falsy) run `discover_tests` first (an exception from it
propagates), then filter the discovered list. -/
def filter_tests (parse : String → ParsedInfo) (eng : Engine)
    (tree : List DirOutcome) (categories : Option (List String))
    (exclude_slow exclude_ci : Bool) :
    Except PyErr (Engine × List TestInfo) :=
  if eng.discovered_tests = [] then
    let (eng', res) := discover_tests parse eng tree
    match res with
    | .error e => .error e
    | .ok _ =>
      .ok (eng', eng'.discovered_tests.filter (keep_test categories exclude_slow exclude_ci))
  else
    .ok (eng, eng.discovered_tests.filter (keep_test categories exclude_slow exclude_ci))

/-- Modelled from the spec: `TestStatus` of data_structures.py (module not
under src) -- the status enum `PASS|FAIL|ERROR|SKIP` of a TestResult (spec
section 3). -/
inductive TestStatus where
  | pass
  | fail
  | error
  | skip
deriving DecidableEq, Repr

/-- Modelled from the spec: `ErrorInfo` of data_structures.py (module not
under src) -- exception type name, message, formatted traceback text (spec
section 3). -/
structure ErrorInfo where
  type : String
  message : String
  traceback : String
deriving DecidableEq, Repr

/-- Modelled from the spec: `TestResult` of data_structures.py (module not
under src) -- name, class name, status, duration, timestamp, metadata bag,
optional ErrorInfo (spec section 3).  `skip_reason` models the source's
`test_result.metadata['skip_reason'] = reason` on the skip path. -/
structure TestResult where
  name : String
  classname : String
  status : TestStatus
  duration : Rat
  timestamp : Rat
  metadata : Metadata := {}
  error_info : Option ErrorInfo := none
  skip_reason : Option String := none
deriving DecidableEq, Repr

/-- Modelled from the spec: `TestRunSummary` of data_structures.py (module
not under src) -- aggregate counters, duration, start/end timestamps,
command, exit code (spec section 3). -/
structure TestRunSummary where
  total_tests : Nat
  passed : Nat
  failed : Nat
  errors : Nat
  skipped : Nat
  duration : Rat
  start_time : Rat
  end_time : Rat
  command : String
  exit_code : Int
deriving DecidableEq, Repr

/-- Modelled from the spec: `TestEvent` of output_architecture.py (module
not under src) -- tagged union over run_start / test_start / test_end /
run_end (spec section 3).
The publisher fan-out to observers is modelled as the list of events a
call publishes (`notify_all` appends one event to the stream). -/
inductive Event where
  | run_start (command : String) (start_time : Rat) (test_count : Nat)
  | test_start (test_name test_class : String)
  | test_end (result : TestResult)
  | run_end (summary : TestRunSummary)
deriving DecidableEq, Repr

/-- The run-tracking state of `EnhancedOutputFormatter`
(enhanced_output.py lines 52-55). Observer setup holds no per-run state
relevant to the claims and is omitted. -/
structure Formatter where
  test_results : List TestResult := []
  run_start_time : Option Rat := none
  run_command : Option String := none
deriving DecidableEq, Repr

/-- Embedding of `start_test_run` (enhanced_output.py lines 99-120): records the start
time and command, clears the result list, publishes a run_start event. -/
def start_test_run (f : Formatter) (command : String) (test_count : Nat)
    (now : Rat) : Formatter × List Event :=
  ({ f with run_start_time := some now, run_command := some command,
            test_results := [] },
   [Event.run_start command now test_count])

/-- Embedding of `notify_test_end` (enhanced_output.py lines 140-153): collect the
result and publish a test_end event. -/
def notify_test_end (f : Formatter) (r : TestResult) : Formatter × List Event :=
  ({ f with test_results := f.test_results ++ [r] }, [Event.test_end r])

/-- Number of collected results with the given status, as the generator
sums in `end_test_run` count them. -/
def countStatus (s : TestStatus) (rs : List TestResult) : Nat :=
  rs.countP (fun r => decide (r.status = s))

/-- Embedding of `end_test_run` (enhanced_output.py lines 155-194): `if not
self.run_start_time: return` (a datetime is always truthy, `None` is
falsy), else build the summary from the collected results and publish a
run_end event. -/
def end_test_run (f : Formatter) (exit_code : Int) (now : Rat) :
    Formatter × List Event :=
  match f.run_start_time with
  | none => (f, [])
  | some t0 =>
    let duration := now - t0
    let summary : TestRunSummary :=
      { total_tests := f.test_results.length
        passed := countStatus .pass f.test_results
        failed := countStatus .fail f.test_results
        errors := countStatus .error f.test_results
        skipped := countStatus .skip f.test_results
        duration := duration
        start_time := t0
        end_time := now
        command := f.run_command.getD "unknown"
        exit_code := exit_code }
    (f, [Event.run_end summary])

/-- One executed test as the execution collaborator drives it through
`WobbleTestResult` (runner.py): the attributes read off the live test
case, the outcome status with its duration, the metadata collaborator's
answer, the error triple (already rendered to `ErrorInfo` by
`_create_error_info`) on the failure/error paths, and the skip reason on
the skip path. -/
structure Outcome where
  testMethodName : String
  className : String
  status : TestStatus
  duration : Rat
  timestamp : Rat
  metadata : Metadata := {}
  error_info : Option ErrorInfo := none
  skip_reason : Option String := none
deriving DecidableEq, Repr

/-- The `TestResult` that `WobbleTestResult`'s `addSuccess` / `addFailure`
/ `addError` / `addSkip` build (runner.py lines 87-136, `_create_test_result`
lines 149-170): `error_info` is attached only on the failure/error paths,
`skip_reason` only on the skip path. -/
def resultOfOutcome (o : Outcome) : TestResult :=
  { name := o.testMethodName
    classname := o.className
    status := o.status
    duration := o.duration
    timestamp := o.timestamp
    metadata := o.metadata
    error_info :=
      match o.status with
      | .fail => o.error_info
      | .error => o.error_info
      | _ => none
    skip_reason :=
      match o.status with
      | .skip => o.skip_reason
      | _ => none }

/-- The state `suite.run(result)` threads: the enhanced formatter plus the
`unittest.TestResult` counters of `WobbleTestResult` (`testsRun`,
`len(failures)`, `len(errors)`, `len(skipped)`) and the event stream. -/
structure RunState where
  formatter : Formatter
  testsRun : Nat := 0
  failures : Nat := 0
  errors : Nat := 0
  skipped : Nat := 0
  events : List Event := []
deriving DecidableEq, Repr

/-- Executing one test in enhanced mode: `startTest` (testsRun increment
plus `notify_test_start`, runner.py lines 32-57 and enhanced_output.py
lines 122-138) followed by the status callback, which bumps the matching
`unittest` counter list and hands a `TestResult` to `notify_test_end`. -/
def runTestStep (rs : RunState) (o : Outcome) : RunState :=
  let test_name := o.className ++ "." ++ o.testMethodName
  let rs :=
    { rs with testsRun := rs.testsRun + 1
              events := rs.events ++ [Event.test_start test_name o.className] }
  let rs :=
    match o.status with
    | .pass => rs
    | .fail => { rs with failures := rs.failures + 1 }
    | .error => { rs with errors := rs.errors + 1 }
    | .skip => { rs with skipped := rs.skipped + 1 }
  let r := resultOfOutcome o
  let (f', evs) := notify_test_end rs.formatter r
  { rs with formatter := f', events := rs.events ++ evs }

/-- Embedding of `suite.run(result)` over the tests of the run, in order. -/
def runSuite (f : Formatter) (tests : List Outcome) : RunState :=
  tests.foldl runTestStep { formatter := f }

/-- The dictionary `run_tests` returns on the empty-input early path
(runner.py lines 214-223). -/
structure EmptyRunDict where
  tests_run : Nat
  failures : Nat
  errors : Nat
  skipped : Nat
  success_rate : Rat
  total_time : Rat
  results : List TestResult
deriving DecidableEq, Repr

/-- The two shapes `run_tests` can return: the fixed early-return
dictionary, or the compiled statistics of a completed run (the
timing/metadata detail entries of the full dictionary carry no content
beyond `RunState` and are omitted). -/
inductive RunReturn where
  | earlyEmpty (d : EmptyRunDict)
  | completed (tests_run failures errors skipped : Nat)
      (success_rate total_time : Rat)
deriving DecidableEq, Repr

/-- Everything a `run_tests` call produces: its return value, the
formatter state afterwards, and the events published during the call. -/
structure RunOutput where
  ret : RunReturn
  formatter : Formatter
  events : List Event
deriving DecidableEq, Repr

/-- Embedding of `TestRunner.run_tests` in enhanced mode (runner.py lines 205-274):
empty input returns the fixed dictionary at once (before any
`WobbleTestResult` or `start_test_run` exists, so nothing is published);
otherwise start the run, execute the suite, compute the exit code from
the `unittest` failure/error lists and end the run.  `command` stands for
`reconstruct_command()`; `t_start` and `t_end` are the clock readings at
run start and run end. -/
def run_tests (f : Formatter) (command : String) (tests : List Outcome)
    (t_start t_end : Rat) : RunOutput :=
  if tests = [] then
    { ret := .earlyEmpty
        { tests_run := 0, failures := 0, errors := 0, skipped := 0,
          success_rate := 100, total_time := 0, results := [] }
      formatter := f
      events := [] }
  else
    let (f1, ev1) := start_test_run f command tests.length t_start
    let rs := runSuite f1 tests
    let exit_code : Int := if rs.failures > 0 || rs.errors > 0 then 1 else 0
    let (f2, ev2) := end_test_run rs.formatter exit_code t_end
    let success_rate : Rat :=
      if rs.testsRun > 0 then
        ((rs.testsRun : Rat) - (rs.failures : Rat) - (rs.errors : Rat))
          / (rs.testsRun : Rat) * 100
      else 0
    { ret := .completed rs.testsRun rs.failures rs.errors rs.skipped
        success_rate (t_end - t_start)
      formatter := f2
      events := ev1 ++ rs.events ++ ev2 }

/-! ### Shared helpers and sample data -/

/-- The four keys of the dictionary `_categorize_tests` builds. -/
def fourCategories : List String :=
  ["regression", "integration", "development", "uncategorized"]

/-- A concrete undecorated test found in a directory named `tests`. -/
def sampleUncat : TestInfo :=
  { test_method := "test_a", test_class := "TCase", test_module := "test_mod",
    directory := some ⟨"tests"⟩ }

/-- A concrete test whose decorator metadata declares the category
`custom`, which is not one of the four dictionary keys. -/
def sampleCustom : TestInfo :=
  { test_method := "test_a", test_class := "TCase", test_module := "test_mod",
    directory := some ⟨"tests"⟩, metadata := { category := some "custom" } }

/-- A concrete test declaring `integration` while sitting in a
regression-named directory. -/
def sampleIntegInReg : TestInfo :=
  { test_method := "test_b", test_class := "TCase", test_module := "test_mod",
    directory := some ⟨"regression_suite"⟩,
    metadata := { category := some "integration" } }

/-- Appending under any of the four dictionary keys succeeds. -/
theorem categories_append_ok (cs : Categories) (c : String) (t : TestInfo)
    (h : c ∈ fourCategories) :
    ∃ cs', categories_append cs c t = .ok cs' := by
  simp only [fourCategories, List.mem_cons, List.not_mem_nil, or_false] at h
  rcases h with h | h | h | h <;> subst h <;>
    simp [categories_append]

/-- Grouping succeeds from any accumulator when every determined category
is one of the four dictionary keys. -/
theorem categorize_fold_ok (ts : List TestInfo)
    (h : ∀ t ∈ ts, _determine_category t ∈ fourCategories) :
    ∀ cs : Categories,
      ∃ cs', ts.foldlM (fun cs t => categories_append cs (_determine_category t) t) cs
        = .ok cs' := by
  induction ts with
  | nil => intro cs; exact ⟨cs, rfl⟩
  | cons t rest ih =>
    intro cs
    obtain ⟨cs1, hcs1⟩ :=
      categories_append_ok cs (_determine_category t) t (h t (List.mem_cons_self t rest))
    obtain ⟨cs2, hcs2⟩ := ih (fun u hu => h u (List.mem_cons_of_mem t hu)) cs1
    refine ⟨cs2, ?_⟩
    show (categories_append cs (_determine_category t) t >>= fun cs' =>
      rest.foldlM (fun cs t => categories_append cs (_determine_category t) t) cs') = .ok cs2
    rw [hcs1]
    exact hcs2

/-- Directory inference only ever lands in the four dictionary keys. -/
theorem spec_dir_category_mem (nm : String) : spec_dir_category nm ∈ fourCategories := by
  unfold spec_dir_category fourCategories
  split
  · simp
  · split
    · simp
    · split
      · simp
      · simp

/-- Without a truthy declared category, `_determine_category` coincides
with the directory-inference rule (or the default on a missing directory). -/
theorem determine_category_of_no_decorator (t : TestInfo)
    (hm : truthyCategory t.metadata = none) :
    _determine_category t =
      match t.directory with
      | some d => spec_dir_category d.name
      | none => "uncategorized" := by
  unfold _determine_category spec_dir_category
  rw [hm]

/-! ### Claim theorems -/

/-- C2 counterexample: a single discovered test whose metadata declares
the category `custom` makes `_categorize_tests` raise `KeyError` --
grouping is not exception-free for arbitrary declared category strings. -/
theorem C2_counterexample :
    _categorize_tests [sampleCustom] = .error (.keyError "custom") := by
  rfl

/-- C2 (amended): `_determine_category` is total and, for records without
a truthy declared category, always lands in the four built-in categories
(falling back to `uncategorized`); `_categorize_tests` succeeds without an
exception whenever every record's determined category is one of the four
dictionary keys -- in particular whenever no record declares a category
outside them.  A declared category outside the four keys raises
`KeyError`. -/
theorem C2_categorization_total_amended :
    (∀ t : TestInfo, truthyCategory t.metadata = none →
        _determine_category t ∈ fourCategories)
    ∧ ∀ ts : List TestInfo,
        (∀ t ∈ ts, _determine_category t ∈ fourCategories) →
        ∃ cs, _categorize_tests ts = .ok cs := by
  constructor
  · intro t hm
    rw [determine_category_of_no_decorator t hm]
    cases t.directory with
    | none => simp [fourCategories]
    | some d => exact spec_dir_category_mem d.name
  · intro ts h
    exact categorize_fold_ok ts h {}

/-- C2 witness: the amended theorem applied to a concrete list (one
undecorated test, one test declared `integration`). -/
theorem C2_categorization_total_amended_witness :
    ∃ cs, _categorize_tests [sampleUncat, sampleIntegInReg] = .ok cs := by
  refine C2_categorization_total_amended.2 [sampleUncat, sampleIntegInReg] ?_
  intro t ht
  simp only [List.mem_cons, List.not_mem_nil, or_false] at ht
  rcases ht with h | h <;> subst h <;> decide

/-- C3: a non-empty metadata-declared category is returned verbatim by
`_determine_category`, regardless of the containing directory. -/
theorem C3_decorator_wins (t : TestInfo) (c : String)
    (hc : t.metadata.category = some c) (hne : c ≠ "") :
    _determine_category t = c := by
  unfold _determine_category truthyCategory
  rw [hc]
  simp [hne]

/-- C3 witness: a test declaring `integration` inside a regression-named
directory is categorized `integration`. -/
theorem C3_decorator_wins_witness :
    sampleIntegInReg.metadata.category = some "integration"
    ∧ ("integration" : String) ≠ ""
    ∧ _determine_category sampleIntegInReg = "integration" :=
  ⟨rfl, by decide, C3_decorator_wins sampleIntegInReg "integration" rfl (by decide)⟩

/-- C4: with no metadata-declared category, `_determine_category` is the
pure substring rule on the lowercased immediate directory name, in the
order regression, integration, development/dev, else uncategorized
(`spec_dir_category` transcribes the claim's rule). -/
theorem C4_directory_rule (t : TestInfo) (d : Dir)
    (hm : t.metadata.category = none) (hd : t.directory = some d) :
    _determine_category t = spec_dir_category d.name := by
  have hm' : truthyCategory t.metadata = none := by
    unfold truthyCategory; rw [hm]
  rw [determine_category_of_no_decorator t hm', hd]

/-- C4 witness: the undecorated sample in directory `tests` resolves to
`uncategorized` via the directory rule. -/
theorem C4_directory_rule_witness :
    sampleUncat.metadata.category = none
    ∧ sampleUncat.directory = some ⟨"tests"⟩
    ∧ _determine_category sampleUncat = spec_dir_category "tests"
    ∧ spec_dir_category "tests" = "uncategorized" :=
  ⟨rfl, rfl, C4_directory_rule sampleUncat ⟨"tests"⟩ rfl rfl, by decide⟩

/-- C9: `run_tests` on an empty test list returns the fixed dictionary
(zero counters, success rate 100, total time 0, empty results), leaves
the formatter untouched and publishes no event at all. -/
theorem C9_empty_run (f : Formatter) (command : String) (t0 t1 : Rat) :
    run_tests f command [] t0 t1 =
      { ret := .earlyEmpty
          { tests_run := 0, failures := 0, errors := 0, skipped := 0,
            success_rate := 100, total_time := 0, results := [] }
        formatter := f
        events := [] } := by
  rfl

/-- C10: `end_test_run` before any `start_test_run` (no run start time) is
a silent no-op: the formatter state is returned unchanged and no event is
published. -/
theorem C10_end_without_start_noop (f : Formatter) (exit_code : Int) (now : Rat)
    (h : f.run_start_time = none) :
    end_test_run f exit_code now = (f, []) := by
  unfold end_test_run
  rw [h]

/-- C10 witness: the fresh formatter has no run start time and
`end_test_run` on it is a no-op. -/
theorem C10_end_without_start_noop_witness :
    ({} : Formatter).run_start_time = none
    ∧ end_test_run {} 0 5 = (({} : Formatter), []) :=
  ⟨rfl, C10_end_without_start_noop {} 0 5 rfl⟩

/-- Embedding of `_process_error_holder` always raises: the membership probe on the
`discovered_tests` list is false, so the string-keyed assignment executes
and raises `TypeError`. -/
theorem process_error_holder_raises (parse : String → ParsedInfo)
    (discovered : List TestInfo) (eh : ErrorHolder) (d : Dir) :
    _process_error_holder parse discovered eh d =
      .error (.typeError "list indices must be integers or slices, not str") := by
  rfl

/-- C1: processing an `_ErrorHolder` placeholder raises `TypeError` at the
`import_errors` bucket assignment (the bucket is indexed into the
`discovered_tests` *list* with a string key), so no structured
import-error record is ever stored; the flattening loop then stops for
that directory, leaving `discovered_tests` exactly as it was -- the
holder is never appended and the remaining entities of the directory are
dropped. -/
theorem C1_import_error_bucket_bug (parse : String → ParsedInfo)
    (discovered : List TestInfo) (eh : ErrorHolder) (d : Dir) :
    _process_error_holder parse discovered eh d =
      .error (.typeError "list indices must be integers or slices, not str")
    ∧ ∀ rest : List Entity,
        processEntities parse discovered d (Entity.errorHolder eh :: rest) = discovered := by
  refine ⟨process_error_holder_raises parse discovered eh d, ?_⟩
  intro rest
  simp only [processEntities, _process_test, process_error_holder_raises]

/-- The flattening loop only appends: its result from any starting state
is the starting state followed by its result from the empty state. -/
theorem processEntities_append (parse : String → ParsedInfo) (d : Dir)
    (es : List Entity) :
    ∀ st : List TestInfo,
      processEntities parse st d es = st ++ processEntities parse [] d es := by
  induction es with
  | nil => intro st; simp [processEntities]
  | cons e rest ih =>
    intro st
    cases e with
    | runnable m c md meta fp =>
      simp only [processEntities, _process_test, List.nil_append]
      conv_rhs => rw [ih]
      rw [ih]
      simp [List.append_assoc]
    | errorHolder eh =>
      simp only [processEntities, _process_test, process_error_holder_raises]
      simp

/-- Embedding of `_discover_in_directory` only appends to the discovered list. -/
theorem discover_in_directory_append (parse : String → ParsedInfo)
    (o : DirOutcome) (st : List TestInfo) :
    _discover_in_directory parse st o = st ++ _discover_in_directory parse [] o := by
  rcases o with ⟨d, suite⟩
  cases suite with
  | error e => simp [_discover_in_directory]
  | ok es => simpa [_discover_in_directory] using processEntities_append parse d es st

/-- The per-directory loop only appends. -/
theorem discoverAll_append (parse : String → ParsedInfo) (tree : List DirOutcome) :
    ∀ st : List TestInfo,
      discoverAll parse st tree = st ++ discoverAll parse [] tree := by
  induction tree with
  | nil => intro st; simp [discoverAll]
  | cons o rest ih =>
    intro st
    show discoverAll parse (_discover_in_directory parse st o) rest
      = st ++ discoverAll parse (_discover_in_directory parse [] o) rest
    rw [ih, ih (_discover_in_directory parse [] o),
        discover_in_directory_append parse o st]
    simp [List.append_assoc]

/-- Discovery over a concatenation of directory lists is the concatenation
of the discoveries. -/
theorem discoverAll_split (parse : String → ParsedInfo) (l1 l2 : List DirOutcome) :
    discoverAll parse [] (l1 ++ l2)
      = discoverAll parse [] l1 ++ discoverAll parse [] l2 := by
  show (l1 ++ l2).foldl (_discover_in_directory parse) []
    = discoverAll parse [] l1 ++ discoverAll parse [] l2
  rw [List.foldl_append]
  exact discoverAll_append parse l2 (discoverAll parse [] l1)

/-- C5: a pass over any directory list decomposes per directory -- the
tests contributed by each directory are independent of the directories
around it -- and a directory whose discovery primitive raises contributes
nothing at all: the scan over the remaining directories is exactly the
scan without the broken directory.  `_discover_in_directory` is total (it
returns a plain list, never an exception), so no directory aborts the
scan. -/
theorem C5_partial_failure_isolation (parse : String → ParsedInfo) :
    (∀ (pre post : List DirOutcome) (o : DirOutcome),
        discoverAll parse [] (pre ++ o :: post) =
          discoverAll parse [] pre ++ _discover_in_directory parse [] o
            ++ discoverAll parse [] post)
    ∧ (∀ (pre post : List DirOutcome) (d : Dir) (e : PyErr),
        discoverAll parse [] (pre ++ (⟨d, .error e⟩ : DirOutcome) :: post) =
          discoverAll parse [] (pre ++ post)) := by
  have hsingle : ∀ o : DirOutcome,
      discoverAll parse [] [o] = _discover_in_directory parse [] o := by
    intro o; simp [discoverAll]
  have hdecomp : ∀ (pre post : List DirOutcome) (o : DirOutcome),
      discoverAll parse [] (pre ++ o :: post) =
        discoverAll parse [] pre ++ _discover_in_directory parse [] o
          ++ discoverAll parse [] post := by
    intro pre post o
    have hsplit : pre ++ o :: post = pre ++ [o] ++ post := by simp
    rw [hsplit, discoverAll_split, discoverAll_split, hsingle]
  refine ⟨hdecomp, ?_⟩
  intro pre post d e
  rw [hdecomp pre post ⟨d, .error e⟩, discoverAll_split]
  have herr : _discover_in_directory parse [] (⟨d, .error e⟩ : DirOutcome) = [] := rfl
  rw [herr]
  simp

/-- C8: `discover_tests` resets `discovered_tests` before rebuilding, so
its categorized result (hence every per-category count) is the same on a
repeated call over the unchanged tree, and is independent of whatever
state an earlier pass left behind. -/
theorem C8_discovery_idempotent (parse : String → ParsedInfo) (eng eng' : Engine)
    (tree : List DirOutcome) :
    (discover_tests parse ((discover_tests parse eng tree).1) tree).2
      = (discover_tests parse eng tree).2
    ∧ (discover_tests parse eng tree).2 = (discover_tests parse eng' tree).2 :=
  ⟨rfl, rfl⟩

/-- A trivial concrete instantiation of the abstract description parser,
used to evaluate the engine at concrete inputs. -/
def idParse (d : String) : ParsedInfo :=
  { original_description := d, enhanced_message := d }

/-- The keep-condition of `filter_tests` as the amended claim words it:
no category restriction when the category list is `None` *or empty*,
otherwise membership of the re-derived category; a test is excluded by
the slow (resp. CI) filter only when the flag is requested and the
metadata flag is truthy, so absent flags never exclude. -/
def keep_spec (categories : Option (List String)) (exclude_slow exclude_ci : Bool)
    (t : TestInfo) : Bool :=
  (match categories with
   | none => true
   | some [] => true
   | some cs => decide (_determine_category t ∈ cs))
  && !(exclude_slow && truthyOpt t.metadata.slow)
  && !(exclude_ci && truthyOpt t.metadata.skip_ci)

/-- The source's keep-condition coincides with the amended claim's. -/
theorem keep_test_eq_spec (categories : Option (List String))
    (exclude_slow exclude_ci : Bool) (t : TestInfo) :
    keep_test categories exclude_slow exclude_ci t
      = keep_spec categories exclude_slow exclude_ci t := by
  unfold keep_test keep_spec
  cases categories with
  | none => rfl
  | some cs =>
    cases cs with
    | nil => rfl
    | cons c cs' => simp [List.contains]

/-- C6 counterexample: with the category list given as the *empty* list,
the code applies no category restriction (`if categories:` is false on an
empty list) and returns a test whose re-derived category is not a member
of that list -- contradicting the claim's membership semantics for every
given list. -/
theorem C6_counterexample :
    filter_tests idParse ⟨[sampleUncat]⟩ [] (some []) false false
      = .ok (⟨[sampleUncat]⟩, [sampleUncat])
    ∧ _determine_category sampleUncat ∉ ([] : List String) := by
  constructor
  · rfl
  · simp

/-- C6 (amended): `filter_tests` on an engine with a non-empty discovered
list returns exactly the discovered records passing the claim's filters,
with `None` *or an empty list* meaning no category restriction; on an
engine whose discovered list is empty it first triggers a discovery pass
and filters the freshly discovered records (propagating a categorization
exception, should discovery raise one). -/
theorem C6_filter_amended (parse : String → ParsedInfo) (eng : Engine)
    (tree : List DirOutcome) (categories : Option (List String))
    (exclude_slow exclude_ci : Bool) :
    (eng.discovered_tests ≠ [] →
      filter_tests parse eng tree categories exclude_slow exclude_ci
        = .ok (eng, eng.discovered_tests.filter (keep_spec categories exclude_slow exclude_ci)))
    ∧ (eng.discovered_tests = [] →
      filter_tests parse eng tree categories exclude_slow exclude_ci
        = match _categorize_tests (discoverAll parse [] tree) with
          | .error e => .error e
          | .ok _ => .ok (⟨discoverAll parse [] tree⟩,
              (discoverAll parse [] tree).filter
                (keep_spec categories exclude_slow exclude_ci))) := by
  have hfilter : ∀ l : List TestInfo,
      l.filter (keep_test categories exclude_slow exclude_ci)
        = l.filter (keep_spec categories exclude_slow exclude_ci) := by
    intro l
    exact List.filter_congr (fun t _ => keep_test_eq_spec categories exclude_slow exclude_ci t)
  constructor
  · intro hne
    unfold filter_tests
    rw [if_neg hne, hfilter]
  · intro he
    unfold filter_tests
    rw [if_pos he]
    show (match (discover_tests parse eng tree).2 with
      | Except.error e => (Except.error e : Except PyErr (Engine × List TestInfo))
      | Except.ok _ => Except.ok ((discover_tests parse eng tree).1,
          (discover_tests parse eng tree).1.discovered_tests.filter
            (keep_test categories exclude_slow exclude_ci))) = _
    unfold discover_tests
    cases hcat : _categorize_tests (discoverAll parse [] tree) with
    | error e => simp [hcat]
    | ok cs => simp [hcat, hfilter]

/-- C6 witness: the amended theorem applied to a concrete engine holding
one discovered test declared `integration`, with both exclusion flags on:
the test lacks slow/skip_ci flags and so is kept. -/
theorem C6_filter_amended_witness :
    (⟨[sampleIntegInReg]⟩ : Engine).discovered_tests ≠ []
    ∧ filter_tests idParse ⟨[sampleIntegInReg]⟩ [] (some ["integration"]) true true
        = .ok (⟨[sampleIntegInReg]⟩, [sampleIntegInReg]) := by
  refine ⟨by simp, ?_⟩
  have h := (C6_filter_amended idParse ⟨[sampleIntegInReg]⟩ [] (some ["integration"])
    true true).1 (by simp)
  rw [h]
  rfl

/-- The `TestResult` built from an outcome carries the outcome's status. -/
theorem resultOfOutcome_status (o : Outcome) : (resultOfOutcome o).status = o.status :=
  rfl

/-- Effect of one executed test on the run state. -/
theorem runTestStep_spec (rs : RunState) (o : Outcome) :
    (runTestStep rs o).formatter.test_results
        = rs.formatter.test_results ++ [resultOfOutcome o]
    ∧ (runTestStep rs o).formatter.run_start_time = rs.formatter.run_start_time
    ∧ (runTestStep rs o).formatter.run_command = rs.formatter.run_command
    ∧ (runTestStep rs o).failures
        = rs.failures + (if o.status = TestStatus.fail then 1 else 0)
    ∧ (runTestStep rs o).errors
        = rs.errors + (if o.status = TestStatus.error then 1 else 0)
    ∧ (runTestStep rs o).skipped
        = rs.skipped + (if o.status = TestStatus.skip then 1 else 0)
    ∧ (runTestStep rs o).testsRun = rs.testsRun + 1 := by
  rcases o with ⟨m, c, s, dur, ts, meta, ei, sr⟩
  cases s <;> simp [runTestStep, notify_test_end]

/-- Effect of the whole suite on the run state: results are collected in
order, the run start time and command survive, and the `unittest` counter
lists grow by the per-status counts. -/
theorem runFold_spec (tests : List Outcome) :
    ∀ rs : RunState,
      (tests.foldl runTestStep rs).formatter.test_results
          = rs.formatter.test_results ++ tests.map resultOfOutcome
      ∧ (tests.foldl runTestStep rs).formatter.run_start_time
          = rs.formatter.run_start_time
      ∧ (tests.foldl runTestStep rs).formatter.run_command
          = rs.formatter.run_command
      ∧ (tests.foldl runTestStep rs).failures
          = rs.failures + tests.countP (fun o => decide (o.status = TestStatus.fail))
      ∧ (tests.foldl runTestStep rs).errors
          = rs.errors + tests.countP (fun o => decide (o.status = TestStatus.error))
      ∧ (tests.foldl runTestStep rs).skipped
          = rs.skipped + tests.countP (fun o => decide (o.status = TestStatus.skip))
      ∧ (tests.foldl runTestStep rs).testsRun = rs.testsRun + tests.length := by
  induction tests with
  | nil => intro rs; simp
  | cons o rest ih =>
    intro rs
    obtain ⟨s1, s2, s3, s4, s5, s6, s7⟩ := runTestStep_spec rs o
    obtain ⟨i1, i2, i3, i4, i5, i6, i7⟩ := ih (runTestStep rs o)
    simp only [List.foldl_cons]
    refine ⟨?_, ?_, ?_, ?_, ?_, ?_, ?_⟩
    · rw [i1, s1]; simp
    · rw [i2, s2]
    · rw [i3, s3]
    · rw [i4, s4, List.countP_cons]
      by_cases h : o.status = TestStatus.fail <;> simp [h] <;> omega
    · rw [i5, s5, List.countP_cons]
      by_cases h : o.status = TestStatus.error <;> simp [h] <;> omega
    · rw [i6, s6, List.countP_cons]
      by_cases h : o.status = TestStatus.skip <;> simp [h] <;> omega
    · rw [i7, s7]; simp [List.length_cons]; omega

/-- The status counters of `end_test_run` over collected results match the
per-status counts of the outcomes that produced them. -/
theorem countStatus_map_resultOfOutcome (s : TestStatus) (tests : List Outcome) :
    countStatus s (tests.map resultOfOutcome)
      = tests.countP (fun o => decide (o.status = s)) := by
  unfold countStatus
  rw [List.countP_map]
  rfl

/-- A collected result with status FAIL or ERROR exists iff one of the two
per-status outcome counts is positive. -/
theorem exists_fail_or_error_iff (tests : List Outcome) :
    (∃ r ∈ tests.map resultOfOutcome,
        r.status = TestStatus.fail ∨ r.status = TestStatus.error)
      ↔ (0 < tests.countP (fun o => decide (o.status = TestStatus.fail))
         ∨ 0 < tests.countP (fun o => decide (o.status = TestStatus.error))) := by
  rw [List.countP_pos, List.countP_pos]
  simp only [List.mem_map, decide_eq_true_eq]
  constructor
  · rintro ⟨r, ⟨o, ho, rfl⟩, h | h⟩
    · exact Or.inl ⟨o, ho, h⟩
    · exact Or.inr ⟨o, ho, h⟩
  · rintro (⟨o, ho, h⟩ | ⟨o, ho, h⟩)
    · exact ⟨resultOfOutcome o, ⟨o, ho, rfl⟩, Or.inl h⟩
    · exact ⟨resultOfOutcome o, ⟨o, ho, rfl⟩, Or.inr h⟩

/-- On a non-empty test list, `run_tests` leaves the formatter holding
exactly the collected results of the run, and its last published event is
the run_end summary with the counters, timestamps and exit code the
source computes. -/
theorem run_tests_nonempty_components (f : Formatter) (command : String)
    (tests : List Outcome) (t_start t_end : Rat) (hne : tests ≠ []) :
    (run_tests f command tests t_start t_end).formatter.test_results
        = tests.map resultOfOutcome
    ∧ (run_tests f command tests t_start t_end).events.getLast?
        = some (Event.run_end
          { total_tests := (tests.map resultOfOutcome).length
            passed := countStatus .pass (tests.map resultOfOutcome)
            failed := countStatus .fail (tests.map resultOfOutcome)
            errors := countStatus .error (tests.map resultOfOutcome)
            skipped := countStatus .skip (tests.map resultOfOutcome)
            duration := t_end - t_start
            start_time := t_start
            end_time := t_end
            command := command
            exit_code :=
              if (0 < tests.countP (fun o => decide (o.status = TestStatus.fail)))
                  || (0 < tests.countP (fun o => decide (o.status = TestStatus.error)))
                then 1 else 0 }) := by
  have hf1 : start_test_run f command tests.length t_start
      = ((({ f with
               run_start_time := some t_start,
               run_command := some command,
               test_results := [] } : Formatter),
          [Event.run_start command t_start tests.length]) : Formatter × List Event) := rfl
  obtain ⟨h1, h2, h3, h4, h5, h6, h7⟩ :=
    runFold_spec tests { formatter := { f with
                                          run_start_time := some t_start,
                                          run_command := some command,
                                          test_results := [] } }
  set rs := tests.foldl runTestStep { formatter := { f with
                                                       run_start_time := some t_start,
                                                       run_command := some command,
                                                       test_results := [] } } with hrs
  have hresults : rs.formatter.test_results = tests.map resultOfOutcome := by
    rw [h1]; rfl
  have hstart : rs.formatter.run_start_time = some t_start := by rw [h2]
  have hcmd : rs.formatter.run_command = some command := by rw [h3]
  have hfail : rs.failures = tests.countP (fun o => decide (o.status = TestStatus.fail)) := by
    rw [h4]; simp
  have herr : rs.errors = tests.countP (fun o => decide (o.status = TestStatus.error)) := by
    rw [h5]; simp
  have hend : ∀ ec : Int, end_test_run rs.formatter ec t_end
      = (rs.formatter, [Event.run_end
          { total_tests := (tests.map resultOfOutcome).length
            passed := countStatus .pass (tests.map resultOfOutcome)
            failed := countStatus .fail (tests.map resultOfOutcome)
            errors := countStatus .error (tests.map resultOfOutcome)
            skipped := countStatus .skip (tests.map resultOfOutcome)
            duration := t_end - t_start
            start_time := t_start
            end_time := t_end
            command := command
            exit_code := ec }]) := by
    intro ec
    unfold end_test_run
    rw [hstart]
    dsimp only
    rw [hresults, hcmd]
    rfl
  constructor
  · unfold run_tests runSuite
    rw [if_neg hne, hf1]
    dsimp only
    rw [← hrs, hend]
    exact hresults
  · unfold run_tests runSuite
    rw [if_neg hne, hf1]
    dsimp only
    rw [← hrs, hend]
    dsimp only
    rw [List.getLast?_concat, hfail, herr]

/-- C7: at the end of every (non-empty) test run, the last published event
is a run_end summary whose exit code is 1 exactly when some collected
result has status FAIL or ERROR (else 0), whose per-status counters count
the collected results of each status, whose total is the number of
collected results and whose duration is the end time minus the run start
time. -/
theorem C7_exit_code_and_summary (f : Formatter) (command : String)
    (tests : List Outcome) (t_start t_end : Rat) (hne : tests ≠ []) :
    ∃ s : TestRunSummary,
      (run_tests f command tests t_start t_end).events.getLast?
          = some (Event.run_end s)
      ∧ s.exit_code = (if ∃ r ∈ (run_tests f command tests t_start t_end).formatter.test_results,
            r.status = TestStatus.fail ∨ r.status = TestStatus.error then (1 : Int) else 0)
      ∧ s.total_tests
          = (run_tests f command tests t_start t_end).formatter.test_results.length
      ∧ s.passed = countStatus .pass (run_tests f command tests t_start t_end).formatter.test_results
      ∧ s.failed = countStatus .fail (run_tests f command tests t_start t_end).formatter.test_results
      ∧ s.errors = countStatus .error (run_tests f command tests t_start t_end).formatter.test_results
      ∧ s.skipped = countStatus .skip (run_tests f command tests t_start t_end).formatter.test_results
      ∧ s.duration = t_end - t_start := by
  obtain ⟨hres, hlast⟩ := run_tests_nonempty_components f command tests t_start t_end hne
  rw [hres]
  refine ⟨_, hlast, ?_, rfl, rfl, rfl, rfl, rfl, rfl⟩
  by_cases h : ∃ r ∈ tests.map resultOfOutcome,
      r.status = TestStatus.fail ∨ r.status = TestStatus.error
  · rw [if_pos h]
    rcases (exists_fail_or_error_iff tests).mp h with h1 | h1
    · simp [h1]
    · simp [h1]
  · rw [if_neg h]
    have hA : ¬ 0 < tests.countP (fun o => decide (o.status = TestStatus.fail)) :=
      fun ha => h ((exists_fail_or_error_iff tests).mpr (Or.inl ha))
    have hB : ¬ 0 < tests.countP (fun o => decide (o.status = TestStatus.error)) :=
      fun hb => h ((exists_fail_or_error_iff tests).mpr (Or.inr hb))
    simp [hA, hB]

/-- A concrete failing outcome for the C7 witness. -/
def sampleFailOutcome : Outcome :=
  { testMethodName := "test_f", className := "TCase", status := .fail,
    duration := 1, timestamp := 0,
    error_info := some { type := "AssertionError", message := "boom", traceback := "tb" } }

/-- C7 witness: the theorem applied to a one-test run whose test fails. -/
theorem C7_exit_code_and_summary_witness :
    ([sampleFailOutcome] : List Outcome) ≠ []
    ∧ ∃ s : TestRunSummary,
      (run_tests {} "wobble" [sampleFailOutcome] 0 2).events.getLast?
          = some (Event.run_end s)
      ∧ s.exit_code = (if ∃ r ∈ (run_tests {} "wobble" [sampleFailOutcome] 0 2).formatter.test_results,
            r.status = TestStatus.fail ∨ r.status = TestStatus.error then (1 : Int) else 0)
      ∧ s.total_tests
          = (run_tests {} "wobble" [sampleFailOutcome] 0 2).formatter.test_results.length
      ∧ s.passed = countStatus .pass (run_tests {} "wobble" [sampleFailOutcome] 0 2).formatter.test_results
      ∧ s.failed = countStatus .fail (run_tests {} "wobble" [sampleFailOutcome] 0 2).formatter.test_results
      ∧ s.errors = countStatus .error (run_tests {} "wobble" [sampleFailOutcome] 0 2).formatter.test_results
      ∧ s.skipped = countStatus .skip (run_tests {} "wobble" [sampleFailOutcome] 0 2).formatter.test_results
      ∧ s.duration = 2 - 0 :=
  ⟨by simp, C7_exit_code_and_summary {} "wobble" [sampleFailOutcome] 0 2 (by simp)⟩

end Wobble
